import Mathlib

/-!
# Verification of the Data Explorer frontend session layer

Shallow embedding of the client-side session logic of the Data Explorer
repository: the React context `DataExplorerContext.tsx` (session state,
`processCommand`, `applySuggestion`, `uploadFile`, `resetSession`,
`clearConversation`, `createSession`), the chat page handlers
(`handleSubmit`, `handleSuggestionClick`) and the visualization page's
`ChartComponent`.

Modelling conventions:
  * React `useState` cells are gathered into one record `ExplorerState`;
    each handler is a pure function from the pre-call state, its arguments
    and a server-response environment to the post-call state.
  * Network responses are oracle inputs (`Fetch`): a request either yields
    a parsed HTTP-ok body, an HTTP error with a status code and an optional
    `detail` field from the error body, or throws with a message (network
    failure / JSON parse failure).  A response body is modelled as a value,
    so reading it is idempotent.
  * Each handler additionally returns the list of requests it issued, in
    order, so that "a request was never sent" is expressible.
  * The `sessionId` a handler reads is the value captured by its closure at
    render time; `createSession` updates the state field but never the
    captured variable, exactly as in the JavaScript closure semantics.
  * JSON numbers that are only carried through (confidence, revenue values)
    are modelled as `Int`; no claim computes with their fractional part.
-/

/-- A JSON-ish scalar cell value as it appears in a data row. -/
inductive Scalar where
  | str : String → Scalar
  | int : Int → Scalar
  | bool : Bool → Scalar
  | null : Scalar
deriving DecidableEq, Repr

/-- JavaScript truthiness of a scalar. -/
def Scalar.truthy : Scalar → Bool
  | .str s => s ≠ ""
  | .int n => n ≠ 0
  | .bool b => b
  | .null => false

/-- A data row: `Record<string, unknown>` at the transport boundary. -/
def Row : Type := List (String × Scalar)

instance : DecidableEq Row := inferInstanceAs (DecidableEq (List (String × Scalar)))

instance : Repr Row := inferInstanceAs (Repr (List (String × Scalar)))

/-- The `Suggestion` interface of `DataExplorerContext.tsx`. -/
structure Suggestion where
  type : String
  description : String
  operation : List (String × Scalar)
deriving DecidableEq, Repr

/-- The `OperationResult` interface of `DataExplorerContext.tsx`. -/
structure OperationResult where
  operation_type : String
  operation_params : List (String × Scalar)
  confidence : Int
  ai_explanation : String
  suggestions : List Suggestion
deriving DecidableEq, Repr

/-- The `ConversationItem` interface of `DataExplorerContext.tsx`. -/
structure ConversationItem where
  user_command : String
  ai_explanation : String
  operation_type : String
  confidence : Option Int
  timestamp : String
  suggestions : Option (List Suggestion)
deriving DecidableEq, Repr

/-- The `DataInfo` interface of `DataExplorerContext.tsx`. -/
structure DataInfo where
  shape : Nat × Nat
  columns : List String
  numeric_columns : List String
  categorical_columns : List String
  date_columns : List String
deriving DecidableEq, Repr

/-- The `useState` cells of `DataExplorerProvider`, gathered into a record. -/
structure ExplorerState where
  sessionId : Option String
  dataInfo : Option DataInfo
  currentData : List Row
  conversationHistory : List ConversationItem
  operationHistory : List Row
  lastOperation : Option OperationResult
  currentCharts : Option (List (String × String))
  suggestions : List Suggestion
  isLoading : Bool
  isProcessing : Bool
  isUploading : Bool
  error : Option String
deriving DecidableEq, Repr

/-- Outcome of one `fetch` call, body already parsed: HTTP-ok with a body of
type `β`, an HTTP error with status code and the optional `detail` of the
error body, or a thrown exception carrying the message `setError` receives. -/
inductive Fetch (β : Type) where
  | ok : β → Fetch β
  | httpErr : Nat → Option String → Fetch β
  | thrown : String → Fetch β
deriving DecidableEq, Repr

/-- Requests the client can issue, used to trace what a handler sent. -/
inductive Request where
  | createSession : Request
  | command : String → String → Request
  | applySugg : String → Request
  | upload : String → Request
  | dataReq : String → Request
  | chart : String → Request
  | reset : String → Request
deriving DecidableEq, Repr

/-- Body of a successful `POST /sessions/{id}/command` or
`/apply-suggestion` response, as read by the context. -/
structure CmdBody where
  success : Bool
  data : List Row
  operation_type : String
  operation_params : List (String × Scalar)
  confidence : Int
  ai_explanation : String
  suggestions : Option (List Suggestion)
  charts : Option (List (String × String))
  chart_config : Option (List (String × Scalar))
deriving DecidableEq, Repr

/-- Body of a successful `POST /sessions/{id}/chart` response. -/
structure ChartFetchBody where
  chart_type : Option String
  chart : String
deriving DecidableEq, Repr

/-- Server-response environment for one `processCommand` call: the command
response, the retry response used on the 404 path, the chart response used
when the body carries a `chart_config`, the `createSession` response, and
the wall-clock timestamp. -/
structure CmdEnv where
  resp : Fetch CmdBody
  retryResp : Fetch CmdBody
  chartResp : Fetch ChartFetchBody
  createResp : Fetch String
  now : String
deriving DecidableEq, Repr

/-- The `createSession` handler: on success stores the new session id in the
state (the captured `sessionId` of the running closure is unaffected), on
failure sets the error message. -/
def createSession (s : ExplorerState) (resp : Fetch String) : ExplorerState :=
  match resp with
  | .ok sid => { s with sessionId := some sid, error := none, isLoading := false }
  | .httpErr _ _ => { s with error := some "Failed to create session", isLoading := false }
  | .thrown msg => { s with error := some msg, isLoading := false }

/-- Error message set when a handler finds no session even after
`createSession` (the closure still reads the stale `null`). -/
def noSessionMsg : String := "Failed to create session. Please try again."

/-- Error message of the `processCommand` 404 path when the retry fails. -/
def sessionExpiredMsg : String :=
  "Session expired. Please upload your data file again to continue the conversation."

/-- Error message of the `processCommand` 400 path with detail
`No data loaded`. -/
def uploadFirstMsg : String :=
  "Please upload a CSV file first before making queries. Use the file upload area at the top of the page."

/-- The conversation entry appended by the main success path of
`processCommand`. -/
def mainEntry (command : String) (body : CmdBody) (now : String) : ConversationItem :=
  { user_command := command
    ai_explanation := body.ai_explanation
    operation_type := body.operation_type
    confidence := some body.confidence
    timestamp := now
    suggestions := some (body.suggestions.getD []) }

/-- The conversation entry appended by the 404-retry success path of
`processCommand` (it carries neither confidence nor suggestions). -/
def retryEntry (command : String) (body : CmdBody) (now : String) : ConversationItem :=
  { user_command := command
    ai_explanation := body.ai_explanation
    operation_type := body.operation_type
    confidence := none
    timestamp := now
    suggestions := none }

/-- The `OperationResult` built from a response body (both success paths and
`applySuggestion` build the same record). -/
def opResultOf (body : CmdBody) : OperationResult :=
  { operation_type := body.operation_type
    operation_params := body.operation_params
    confidence := body.confidence
    ai_explanation := body.ai_explanation
    suggestions := body.suggestions.getD [] }

/-- Success-path state update shared by the main branch of `processCommand`:
replace `currentData`, set `lastOperation` and `suggestions`, append the
conversation entry, then apply the chart handling. -/
def cmdSuccessUpdate (s : ExplorerState) (command : String) (body : CmdBody)
    (now : String) : ExplorerState :=
  let s1 := { s with
    currentData := body.data
    lastOperation := some (opResultOf body)
    suggestions := body.suggestions.getD []
    conversationHistory := s.conversationHistory ++ [mainEntry command body now] }
  match body.charts with
  | some cs => { s1 with currentCharts := some cs }
  | none => s1

/-- The `processCommand` handler with a non-null captured session id:
returns the post-call state and the trace of issued requests. -/
def processCommandWith (sid : String) (s : ExplorerState) (command : String)
    (env : CmdEnv) : ExplorerState × List Request :=
  let s0 : ExplorerState := { s with isProcessing := true, error := none }
  match env.resp with
  | .ok body =>
    if body.success then
      let s1 := cmdSuccessUpdate s0 command body env.now
      match body.chart_config with
      | some _ =>
        match env.chartResp with
        | .ok cb =>
          ({ s1 with
              currentCharts := some [(cb.chart_type.getD "bar", cb.chart)],
              isProcessing := false },
           [Request.command sid command, Request.chart sid])
        | _ =>
          ({ s1 with isProcessing := false },
           [Request.command sid command, Request.chart sid])
      | none => ({ s1 with isProcessing := false }, [Request.command sid command])
    else ({ s0 with isProcessing := false }, [Request.command sid command])
  | .httpErr status detail =>
    if status = 404 then
      let s1 := createSession s0 env.createResp
      match env.retryResp with
      | .ok body =>
        if body.success then
          ({ s1 with
              currentData := body.data
              lastOperation := some (opResultOf body)
              suggestions := body.suggestions.getD []
              conversationHistory := s1.conversationHistory ++ [retryEntry command body env.now]
              isProcessing := false },
           [Request.command sid command, Request.createSession, Request.command sid command])
        else
          ({ s1 with isProcessing := false },
           [Request.command sid command, Request.createSession, Request.command sid command])
      | .httpErr _ _ =>
        ({ s1 with error := some sessionExpiredMsg, isProcessing := false },
         [Request.command sid command, Request.createSession, Request.command sid command])
      | .thrown msg =>
        ({ s1 with error := some msg, isProcessing := false },
         [Request.command sid command, Request.createSession, Request.command sid command])
    else if status = 400 ∧ detail = some "No data loaded" then
      ({ s0 with error := some uploadFirstMsg, isProcessing := false },
       [Request.command sid command])
    else
      ({ s0 with
          error := some (detail.getD "Failed to process command"),
          isProcessing := false },
       [Request.command sid command])
  | .thrown msg =>
    ({ s0 with error := some msg, isProcessing := false }, [Request.command sid command])

/-- The `processCommand` handler.  When the captured `sessionId` is null it
calls `createSession`, re-reads the captured variable — which is still null —
sets the error and returns before issuing any command request. -/
def processCommand (s : ExplorerState) (command : String) (env : CmdEnv) :
    ExplorerState × List Request :=
  match s.sessionId with
  | none =>
    ({ createSession s env.createResp with error := some noSessionMsg },
     [Request.createSession])
  | some sid => processCommandWith sid s command env

/-- Server-response environment for one `applySuggestion` call. -/
structure SugEnv where
  resp : Fetch CmdBody
  createResp : Fetch String
deriving DecidableEq, Repr

/-- Error message of the `applySuggestion` 404 path. -/
def sugExpiredMsg : String := "Session expired. Please upload your data again."

/-- Error message of the `applySuggestion` 400 path with detail
`No data loaded`. -/
def sugUploadFirstMsg : String :=
  "Please upload a CSV file first before applying suggestions. Use the file upload area at the top of the page."

/-- The `applySuggestion` handler with a non-null captured session id.  On a
successful body it replaces `currentData`, `lastOperation` and `suggestions`
but appends no conversation entry. -/
def applySuggestionWith (sid : String) (s : ExplorerState) (env : SugEnv) :
    ExplorerState × List Request :=
  let s0 : ExplorerState := { s with isProcessing := true, error := none }
  match env.resp with
  | .ok body =>
    if body.success then
      ({ s0 with
          currentData := body.data
          lastOperation := some (opResultOf body)
          suggestions := body.suggestions.getD []
          isProcessing := false },
       [Request.applySugg sid])
    else ({ s0 with isProcessing := false }, [Request.applySugg sid])
  | .httpErr status detail =>
    if status = 404 then
      let s1 := createSession s0 env.createResp
      ({ s1 with error := some sugExpiredMsg, isProcessing := false },
       [Request.applySugg sid, Request.createSession])
    else if status = 400 ∧ detail = some "No data loaded" then
      ({ s0 with error := some sugUploadFirstMsg, isProcessing := false },
       [Request.applySugg sid])
    else
      ({ s0 with
          error := some (detail.getD "Failed to apply suggestion"),
          isProcessing := false },
       [Request.applySugg sid])
  | .thrown msg =>
    ({ s0 with error := some msg, isProcessing := false }, [Request.applySugg sid])

/-- The `applySuggestion` handler (the suggestion itself is only serialized
into the request body; the state update depends on the response alone). -/
def applySuggestion (s : ExplorerState) (env : SugEnv) :
    ExplorerState × List Request :=
  match s.sessionId with
  | none =>
    ({ createSession s env.createResp with error := some noSessionMsg },
     [Request.createSession])
  | some sid => applySuggestionWith sid s env

/-- Body of a successful `POST /sessions/{id}/upload` response. -/
structure UploadBody where
  shape : Nat × Nat
  columns : List String
  data_types : List (String × String)
  sample_data : List Row
deriving DecidableEq, Repr

/-- Server-response environment for one `uploadFile` call. -/
structure UploadEnv where
  resp : Fetch UploadBody
  retryResp : Fetch UploadBody
  dataResp : Fetch (List Row)
  createResp : Fetch String
deriving DecidableEq, Repr

/-- JavaScript `hay.includes(needle)` substring test. -/
def jsIncludes (hay needle : String) : Bool :=
  decide (needle.toList <:+: hay.toList)

/-- Value of `data.data_types[col]` (`""` for an absent key, which the
filters below treat like any non-matching string). -/
def dataTypeOf (dt : List (String × String)) (col : String) : String :=
  (((dt.find? (fun p => p.1 = col)).map Prod.snd).getD "")

/-- The `numeric_columns` filter of `uploadFile`: keys of `data_types` whose
type string contains `int` or `float`. -/
def numericColumnsOf (dt : List (String × String)) : List String :=
  (dt.map Prod.fst).filter (fun col =>
    jsIncludes (dataTypeOf dt col) "int" || jsIncludes (dataTypeOf dt col) "float")

/-- The `categorical_columns` filter of `uploadFile`: keys whose type string
contains `object`. -/
def categoricalColumnsOf (dt : List (String × String)) : List String :=
  (dt.map Prod.fst).filter (fun col => jsIncludes (dataTypeOf dt col) "object")

/-- The `date_columns` filter of `uploadFile`: keys whose type string
contains `datetime`. -/
def dateColumnsOf (dt : List (String × String)) : List String :=
  (dt.map Prod.fst).filter (fun col => jsIncludes (dataTypeOf dt col) "datetime")

/-- The `DataInfo` record `uploadFile` builds from an upload response. -/
def mkDataInfo (body : UploadBody) : DataInfo :=
  { shape := body.shape
    columns := body.columns
    numeric_columns := numericColumnsOf body.data_types
    categorical_columns := categoricalColumnsOf body.data_types
    date_columns := dateColumnsOf body.data_types }

/-- Shared tail of both `uploadFile` success paths: set `dataInfo` and the
sample data, then load the full data if that request succeeds. -/
def uploadSuccessUpdate (s : ExplorerState) (body : UploadBody)
    (dataResp : Fetch (List Row)) : ExplorerState :=
  let s1 := { s with dataInfo := some (mkDataInfo body), currentData := body.sample_data }
  match dataResp with
  | .ok rows => { s1 with currentData := rows, isUploading := false }
  | .httpErr _ _ => { s1 with isUploading := false }
  | .thrown msg => { s1 with error := some msg, isUploading := false }

/-- The `uploadFile` handler with a non-null captured session id. -/
def uploadFileWith (sid : String) (s : ExplorerState) (env : UploadEnv) :
    ExplorerState × List Request :=
  let s0 : ExplorerState := { s with isUploading := true, error := none }
  match env.resp with
  | .ok body =>
    (uploadSuccessUpdate s0 body env.dataResp,
     [Request.upload sid, Request.dataReq sid])
  | .httpErr status detail =>
    if status = 404 then
      let s1 := createSession s0 env.createResp
      match env.retryResp with
      | .ok body =>
        (uploadSuccessUpdate s1 body env.dataResp,
         [Request.upload sid, Request.createSession, Request.upload sid, Request.dataReq sid])
      | .httpErr _ rdetail =>
        ({ s1 with
            error := some (rdetail.getD "Failed to upload file"),
            isUploading := false },
         [Request.upload sid, Request.createSession, Request.upload sid])
      | .thrown msg =>
        ({ s1 with error := some msg, isUploading := false },
         [Request.upload sid, Request.createSession, Request.upload sid])
    else
      ({ s0 with
          error := some (detail.getD "Failed to upload file"),
          isUploading := false },
       [Request.upload sid])
  | .thrown msg =>
    ({ s0 with error := some msg, isUploading := false }, [Request.upload sid])

/-- The `uploadFile` handler (the file itself only travels in the request
body; the state update depends on the response alone). -/
def uploadFile (s : ExplorerState) (env : UploadEnv) :
    ExplorerState × List Request :=
  match s.sessionId with
  | none =>
    ({ createSession s env.createResp with error := some noSessionMsg },
     [Request.createSession])
  | some sid => uploadFileWith sid s env

/-- Server-response environment for one `resetSession` call. -/
structure ResetEnv where
  resetResp : Fetch Unit
  dataResp : Fetch (List Row)
deriving DecidableEq, Repr

/-- The `resetSession` handler: with no session it only sets an error;
otherwise it posts the reset, reloads the data when that succeeds, and
clears `operationHistory` and `conversationHistory` (the clears are skipped
when the data reload throws, because the exception jumps to the catch). -/
def resetSession (s : ExplorerState) (env : ResetEnv) :
    ExplorerState × List Request :=
  match s.sessionId with
  | none => ({ s with error := some "No session available" }, [])
  | some sid =>
    let s0 : ExplorerState := { s with isLoading := true, error := none }
    match env.resetResp with
    | .ok _ =>
      match env.dataResp with
      | .ok rows =>
        ({ s0 with
            currentData := rows,
            operationHistory := [],
            conversationHistory := [],
            isLoading := false },
         [Request.reset sid, Request.dataReq sid])
      | .httpErr _ _ =>
        ({ s0 with
            operationHistory := [],
            conversationHistory := [],
            isLoading := false },
         [Request.reset sid, Request.dataReq sid])
      | .thrown msg =>
        ({ s0 with error := some msg, isLoading := false },
         [Request.reset sid, Request.dataReq sid])
    | .httpErr _ detail =>
      ({ s0 with
          error := some (detail.getD "Failed to reset session"),
          isLoading := false },
       [Request.reset sid])
    | .thrown msg =>
      ({ s0 with error := some msg, isLoading := false }, [Request.reset sid])

/-- The `clearConversation` handler. -/
def clearConversation (s : ExplorerState) : ExplorerState :=
  { s with conversationHistory := [], lastOperation := none, suggestions := [] }

/-- Whitespace as JavaScript `String.prototype.trim` removes it (the
characters the chat input can contain). -/
def isJsSpace (c : Char) : Bool :=
  c = ' ' || c = '\t' || c = '\n' || c = '\r'

/-- JavaScript `message.trim()`, over the character list of the string. -/
def jsTrim (s : String) : List Char :=
  ((s.toList.dropWhile isJsSpace).reverse.dropWhile isJsSpace).reverse

/-- The guard of the chat page's `handleSubmit`: `processCommand` is invoked
only when the trimmed message is non-empty and no turn is in flight. -/
def handleSubmitSends (message : String) (isProcessing : Bool) : Bool :=
  if (jsTrim message).isEmpty || isProcessing then false else true

/-- The `disabled` expression of the send button:
`!message.trim() || isProcessing`. -/
def sendDisabled (message : String) (isProcessing : Bool) : Bool :=
  (jsTrim message).isEmpty || isProcessing

/-- Action taken by the chat page's `handleSuggestionClick`: either stage the
suggestion's command text in the input box, or call `applySuggestion`. -/
inductive SuggestionClickAction where
  | setMessage : String → SuggestionClickAction
  | applied : SuggestionClickAction
deriving DecidableEq, Repr

/-- The `handleSuggestionClick` dispatch: a `command`-typed suggestion with a
truthy `operation.command` is staged as message text, everything else flows
to `applySuggestion`. -/
def handleSuggestionClick (sug : Suggestion) : SuggestionClickAction :=
  match sug.operation.find? (fun p => p.1 = "command") with
  | some (_, v) =>
    if sug.type = "command" && v.truthy then
      SuggestionClickAction.setMessage (match v with | .str c => c | _ => "")
    else SuggestionClickAction.applied
  | none => SuggestionClickAction.applied

/-- A typed row as the visualization page's `DataRow` interface reads it
(only the fields `generateChartData` accesses are modelled). -/
structure DataRow where
  date : Option String := none
  year : Option Int := none
  quarter : Option Int := none
  region : Option String := none
  product_category : Option String := none
  product_name : Option String := none
  gross_revenue : Option Int := none
  discount_pct : Option Int := none
deriving DecidableEq, Repr

/-- JavaScript `(x as number) || 0` on an optional numeric field. -/
def numOr0 (o : Option Int) : Int := o.getD 0

/-- JavaScript `(x as string) || 'Unknown'` on an optional string field
(the empty string is falsy and also maps to `Unknown`). -/
def strOrUnknown (o : Option String) : String :=
  match o with
  | some s => if s = "" then "Unknown" else s
  | none => "Unknown"

/-- Insert `x` after every element `y` with `le y x`: one step of a stable
sort, modelling the stability of JavaScript `Array.prototype.sort`. -/
def insertStable (le : α → α → Bool) (x : α) : List α → List α
  | [] => [x]
  | y :: ys => if le y x then y :: insertStable le x ys else x :: y :: ys

/-- Stable sort by a boolean comparator (JavaScript `Array.prototype.sort`
with a consistent comparator). -/
def stableSort (le : α → α → Bool) (l : List α) : List α :=
  l.foldl (fun acc x => insertStable le x acc) []

/-- One step of the JavaScript `reduce` idiom
`acc[k] = (acc[k] || 0) + v` on an insertion-ordered object. -/
def accAdd (acc : List (String × Int)) (k : String) (v : Int) :
    List (String × Int) :=
  match acc.find? (fun p => p.1 = k) with
  | some _ => acc.map (fun p => if p.1 = k then (p.1, p.2 + v) else p)
  | none => acc ++ [(k, v)]

/-- The repeated `data.reduce((acc, row) => {acc[key] += value})` pattern of
`generateChartData`, keeping first-seen key order. -/
def foldSum (data : List DataRow) (key : DataRow → String) (val : DataRow → Int) :
    List (String × Int) :=
  data.foldl (fun acc r => accAdd acc (key r) (val r)) []

/-- One step of the nested reduce of the `quarterly-performance` case:
`acc[q][region] = (acc[q][region] || 0) + v`. -/
def accAdd2 (acc : List (String × List (String × Int))) (q region : String)
    (v : Int) : List (String × List (String × Int)) :=
  match acc.find? (fun p => p.1 = q) with
  | some _ => acc.map (fun p => if p.1 = q then (p.1, accAdd p.2 region v) else p)
  | none => acc ++ [(q, accAdd [] region v)]

/-- Lookup `nested[q][region] || 0` in the nested reduce result. -/
def lookup2 (nested : List (String × List (String × Int))) (q region : String) : Int :=
  match (nested.find? (fun p => p.1 = q)).map Prod.snd with
  | some inner => (((inner.find? (fun p => p.1 = region)).map Prod.snd).getD 0)
  | none => 0

/-- The quarter label `` `Q${row.quarter} ${row.year}` `` (an absent field
renders as `undefined`, as in JavaScript template strings). -/
def quarterLabel (r : DataRow) : String :=
  "Q" ++ (match r.quarter with | some q => toString q | none => "undefined")
    ++ " " ++ (match r.year with | some y => toString y | none => "undefined")

/-- JavaScript `[...new Set(l)]`: distinct elements in first-seen order. -/
def jsDistinct (l : List String) : List String :=
  l.foldl (fun acc x => if x ∈ acc then acc else acc ++ [x]) []

/-- The declarative payload `generateChartData` computes per chart type
(the Plotly styling attributes carry no data and are omitted). -/
inductive PlotOut where
  | line : List (String × Int) → PlotOut
  | bar : List (String × Int) → PlotOut
  | pie : List (String × Int) → PlotOut
  | groupedBar : List String → List (String × List Int) → PlotOut
  | hbar : List (String × Int) → PlotOut
  | scatter : List (Int × Int) → PlotOut
deriving DecidableEq, Repr

/-- The `switch (type)` body of `generateChartData`: the computed plot data,
or `none` for the `default` case, which sets no chart data.  Date ordering
of `revenue-trend` is modelled by string order on the date field (exact for
the ISO date strings the data uses). -/
def computePlot (ty : String) (data : List DataRow) : Option PlotOut :=
  if ty = "revenue-trend" then
    some (PlotOut.line (stableSort (fun a b => decide (a.1 ≤ b.1))
      (data.map (fun r => (r.date.getD "", numOr0 r.gross_revenue)))))
  else if ty = "region-sales" then
    some (PlotOut.bar (foldSum data (fun r => strOrUnknown r.region)
      (fun r => numOr0 r.gross_revenue)))
  else if ty = "product-category" then
    some (PlotOut.pie (foldSum data (fun r => strOrUnknown r.product_category)
      (fun r => numOr0 r.gross_revenue)))
  else if ty = "quarterly-performance" then
    let nested := data.foldl (fun acc r =>
      accAdd2 acc (quarterLabel r) (strOrUnknown r.region) (numOr0 r.gross_revenue)) []
    let quarters := stableSort (fun a b => decide (a ≤ b)) (nested.map Prod.fst)
    let regions := jsDistinct ((data.map (fun r => r.region)).filterMap
      (fun o => match o with
        | some s => if s = "" then none else some s
        | none => none))
    some (PlotOut.groupedBar quarters
      (regions.map (fun region => (region, quarters.map (fun q => lookup2 nested q region)))))
  else if ty = "top-products" then
    some (PlotOut.hbar ((stableSort (fun a b => decide (b.2 ≤ a.2))
      (foldSum data (fun r => strOrUnknown r.product_name)
        (fun r => numOr0 r.gross_revenue))).take 10))
  else if ty = "discount-analysis" then
    some (PlotOut.scatter (data.map
      (fun r => (numOr0 r.discount_pct * 100, numOr0 r.gross_revenue))))
  else none

/-- The `useState` cells of `ChartComponent`. -/
structure ChartState where
  chartData : Option PlotOut
  loading : Bool
deriving DecidableEq, Repr

/-- Initial `ChartComponent` state: `chartData = null`, `loading = false`. -/
def chartInit : ChartState := { chartData := none, loading := false }

/-- The `generateChartData` callback: on a known type it stores the plot and
clears `loading`; the `default` case only clears `loading`. -/
def generateChartData (ty : String) (data : List DataRow) (st : ChartState) :
    ChartState :=
  match computePlot ty data with
  | some pd => { chartData := some pd, loading := false }
  | none => { st with loading := false }

/-- One run of the `ChartComponent` effect: it returns immediately when the
data is empty or `dataInfo` is null, otherwise it sets `loading` and runs
`generateChartData`. -/
def chartEffectStep (ty : String) (data : List DataRow)
    (dataInfo : Option DataInfo) (st : ChartState) : ChartState :=
  if data.length = 0 || dataInfo.isNone then st
  else generateChartData ty data { st with loading := true }

/-- What the `ChartComponent` body renders. -/
inductive ChartView where
  | loadingView : ChartView
  | noData : ChartView
  | plot : PlotOut → ChartView
deriving DecidableEq, Repr

/-- The render branch of `ChartComponent`: the loading card, the
`No data available` placeholder when `chartData` is null, else the chart. -/
def chartRender (st : ChartState) : ChartView :=
  if st.loading then ChartView.loadingView
  else
    match st.chartData with
    | none => ChartView.noData
    | some pd => ChartView.plot pd

/-- Modelled from the spec: the backend Session record binding the dataset
lineage (original + current); the backend that owns it is not among the
frontend sources, only its HTTP contract is. -/
structure ServerSession where
  originalDataset : List Row
  currentDataset : List Row
deriving DecidableEq, Repr

/-- Modelled from the spec: the `reset` operation restores
`currentDataset = originalDataset`. -/
def serverReset (sess : ServerSession) : ServerSession :=
  { sess with currentDataset := sess.originalDataset }

/-- Modelled from the spec: the data endpoint serializes `currentDataset`. -/
def serverData (sess : ServerSession) : List Row := sess.currentDataset

/-- Responses a spec-conforming backend gives to one `resetSession` call:
the reset succeeds and the subsequent data load returns the reset
session's current dataset. -/
def specResetEnv (sess : ServerSession) : ResetEnv :=
  { resetResp := Fetch.ok (), dataResp := Fetch.ok (serverData (serverReset sess)) }

/-- Conjunction stating that a turn left the session-visible state —
`currentData`, `conversationHistory`, `lastOperation`, `suggestions` —
exactly as it was before the turn. -/
def turnStateUnchanged (s r : ExplorerState) : Prop :=
  r.currentData = s.currentData ∧
  r.conversationHistory = s.conversationHistory ∧
  r.lastOperation = s.lastOperation ∧
  r.suggestions = s.suggestions

/-- A command turn fails outright: the first response is an error and, when
it is the 404 that triggers the automatic retry, the retry response is not
HTTP-ok either. -/
def cmdTurnFails (env : CmdEnv) : Bool :=
  match env.resp with
  | .ok _ => false
  | .httpErr status _ =>
    if status = 404 then
      match env.retryResp with
      | .ok _ => false
      | _ => true
    else true
  | .thrown _ => true

/-- A concrete provider state with a live session, used by witnesses and
counterexamples. -/
def baseState : ExplorerState :=
  { sessionId := some "sess-1"
    dataInfo := none
    currentData := [[("region", Scalar.str "East"), ("sales", Scalar.int 100)]]
    conversationHistory := []
    operationHistory := []
    lastOperation := none
    currentCharts := none
    suggestions := []
    isLoading := false
    isProcessing := false
    isUploading := false
    error := none }

/-- A concrete successful command-response body. -/
def okBody : CmdBody :=
  { success := true
    data := [[("region", Scalar.str "West"), ("sales", Scalar.int 300)]]
    operation_type := "top_n"
    operation_params := [("n", Scalar.int 1)]
    confidence := 1
    ai_explanation := "Showing top 1 rows by sales"
    suggestions := none
    charts := none
    chart_config := none }

/-- A command-response body with `success = false`. -/
def failBody : CmdBody :=
  { okBody with success := false, ai_explanation := "could not process" }

/-- A retry body used to exhibit the 404-retry-success path. -/
def retryBodyA : CmdBody :=
  { okBody with
      data := [[("region", Scalar.str "North"), ("sales", Scalar.int 42)]],
      ai_explanation := "retried after new session" }

/-- A second, distinct retry body. -/
def retryBodyB : CmdBody :=
  { okBody with data := [[("revenue", Scalar.int 7)]], operation_type := "aggregate" }

/-- Environment whose first command response is HTTP-ok and successful. -/
def envOkCmd : CmdEnv :=
  { resp := Fetch.ok okBody, retryResp := Fetch.thrown "unused",
    chartResp := Fetch.thrown "unused", createResp := Fetch.thrown "unused", now := "t1" }

/-- Environment: first response 404, retry succeeds with `retryBodyA`. -/
def envRetryA : CmdEnv :=
  { resp := Fetch.httpErr 404 none, retryResp := Fetch.ok retryBodyA,
    chartResp := Fetch.thrown "unused", createResp := Fetch.ok "sess-2", now := "t2" }

/-- Environment: first response 404, retry succeeds with `retryBodyB`. -/
def envRetryB : CmdEnv :=
  { resp := Fetch.httpErr 404 (some "Session not found"), retryResp := Fetch.ok retryBodyB,
    chartResp := Fetch.thrown "unused", createResp := Fetch.ok "sess-2", now := "t3" }

/-- Environment: the command request itself throws. -/
def envThrowCmd : CmdEnv :=
  { resp := Fetch.thrown "NetworkError when attempting to fetch resource.",
    retryResp := Fetch.thrown "unused", chartResp := Fetch.thrown "unused",
    createResp := Fetch.thrown "unused", now := "t4" }

/-- Environment: 404 and the retry fails too. -/
def env404Fail : CmdEnv :=
  { resp := Fetch.httpErr 404 (some "Session not found"),
    retryResp := Fetch.httpErr 404 (some "Session not found"),
    chartResp := Fetch.thrown "unused", createResp := Fetch.ok "sess-3", now := "t5" }

/-- Environment: 404 and the retry fetch itself throws. -/
def env404Thrown : CmdEnv :=
  { resp := Fetch.httpErr 404 (some "Session not found"),
    retryResp := Fetch.thrown "Failed to fetch",
    chartResp := Fetch.thrown "unused", createResp := Fetch.ok "sess-4", now := "t9" }

/-- Environment: 400 with detail `No data loaded`. -/
def env400NoData : CmdEnv :=
  { resp := Fetch.httpErr 400 (some "No data loaded"), retryResp := Fetch.thrown "unused",
    chartResp := Fetch.thrown "unused", createResp := Fetch.thrown "unused", now := "t6" }

/-- Environment: HTTP-ok body with `success = false`. -/
def envOkFalse : CmdEnv :=
  { resp := Fetch.ok failBody, retryResp := Fetch.thrown "unused",
    chartResp := Fetch.thrown "unused", createResp := Fetch.thrown "unused", now := "t7" }

/-- Apply-suggestion environment with a successful body. -/
def sugEnvOk : SugEnv := { resp := Fetch.ok okBody, createResp := Fetch.thrown "unused" }

/-- Apply-suggestion environment with `success = false`. -/
def sugEnvFalse : SugEnv := { resp := Fetch.ok failBody, createResp := Fetch.thrown "unused" }

/-- The provider state before any session exists. -/
def nullState : ExplorerState := { baseState with sessionId := none }

/-- Command environment where even `createSession` succeeds server-side. -/
def envCreateOk : CmdEnv :=
  { resp := Fetch.thrown "unused", retryResp := Fetch.thrown "unused",
    chartResp := Fetch.thrown "unused", createResp := Fetch.ok "sess-9", now := "t8" }

/-- Apply-suggestion environment where `createSession` succeeds server-side. -/
def sugEnvCreateOk : SugEnv := { resp := Fetch.thrown "unused", createResp := Fetch.ok "sess-9" }

/-- Upload environment where `createSession` succeeds server-side. -/
def uploadEnvCreateOk : UploadEnv :=
  { resp := Fetch.thrown "unused", retryResp := Fetch.thrown "unused",
    dataResp := Fetch.thrown "unused", createResp := Fetch.ok "sess-9" }

/-- An upload body containing a boolean-typed column. -/
def uploadBodyBool : UploadBody :=
  { shape := (2, 2)
    columns := ["flag", "sales"]
    data_types := [("flag", "bool"), ("sales", "int64")]
    sample_data := [[("flag", Scalar.bool true), ("sales", Scalar.int 3)]] }

/-- A concrete backend session whose current dataset has drifted from the
original. -/
def sessA : ServerSession :=
  { originalDataset := [[("region", Scalar.str "East"), ("sales", Scalar.int 100)]]
    currentDataset := [[("region", Scalar.str "West")]] }

/-- One turn's effect on the conversation history: unchanged, emptied, or
exactly one entry appended at the end. -/
def historyStep (s r : ExplorerState) : Prop :=
  r.conversationHistory = s.conversationHistory ∨
  r.conversationHistory = [] ∨
  ∃ e, r.conversationHistory = s.conversationHistory ++ [e]

/-- C3: for every session with an uploaded dataset, the reset operation
restores `currentData` to the originally uploaded dataset and clears
`conversationHistory` to the empty sequence (backend reset behaviour
modelled from the spec). -/
theorem resetSession_restores_original_and_clears_history
    (s : ExplorerState) (sid : String) (sess : ServerSession)
    (hs : s.sessionId = some sid) :
    (resetSession s (specResetEnv sess)).1.currentData = sess.originalDataset ∧
    (resetSession s (specResetEnv sess)).1.conversationHistory = [] := by
  simp [resetSession, hs, specResetEnv, serverReset, serverData]

/-- Witness for C3 at a concrete drifted session. -/
theorem resetSession_restores_original_and_clears_history_witness :
    (resetSession baseState (specResetEnv sessA)).1.currentData = sessA.originalDataset ∧
    (resetSession baseState (specResetEnv sessA)).1.conversationHistory = [] :=
  resetSession_restores_original_and_clears_history baseState "sess-1" sessA rfl

/-- C6: while a turn is in flight or the trimmed message is empty,
submitting the form never invokes `processCommand` and the send control is
disabled, so no second command is started against the same data. -/
theorem handleSubmit_guard_blocks_concurrent_turns
    (message : String) (inFlight : Bool)
    (h : inFlight = true ∨ (jsTrim message).isEmpty = true) :
    handleSubmitSends message inFlight = false ∧
    sendDisabled message inFlight = true := by
  rcases h with h | h <;>
    simp [handleSubmitSends, sendDisabled, h]

/-- Witness for C6: a whitespace-only message with no turn in flight. -/
theorem handleSubmit_guard_blocks_concurrent_turns_witness :
    handleSubmitSends " \t " false = false ∧ sendDisabled " \t " false = true :=
  handleSubmit_guard_blocks_concurrent_turns " \t " false (Or.inr (by decide))

/-- C7: for every chart type, when the input data has zero rows the
chart-data computation is skipped, `chartData` stays null, and the
`No data available` placeholder is rendered instead of a chart. -/
theorem chartComponent_empty_data_no_chart
    (ty : String) (di : Option DataInfo) (st : ChartState) :
    chartEffectStep ty [] di st = st ∧
    (chartEffectStep ty [] di chartInit).chartData = none ∧
    chartRender (chartEffectStep ty [] di chartInit) = ChartView.noData := by
  refine ⟨?_, ?_, ?_⟩ <;> simp [chartEffectStep, chartInit, chartRender]

/-- C10: a column whose reported dtype string contains none of `int`,
`float`, `object`, `datetime` is placed in none of the three
classification lists of the `DataInfo` built by `uploadFile`. -/
theorem unclassified_dtype_in_no_column_list (body : UploadBody) (col : String)
    (h1 : jsIncludes (dataTypeOf body.data_types col) "int" = false)
    (h2 : jsIncludes (dataTypeOf body.data_types col) "float" = false)
    (h3 : jsIncludes (dataTypeOf body.data_types col) "object" = false)
    (h4 : jsIncludes (dataTypeOf body.data_types col) "datetime" = false) :
    col ∉ (mkDataInfo body).numeric_columns ∧
    col ∉ (mkDataInfo body).categorical_columns ∧
    col ∉ (mkDataInfo body).date_columns := by
  refine ⟨?_, ?_, ?_⟩ <;>
    simp [mkDataInfo, numericColumnsOf, categoricalColumnsOf, dateColumnsOf,
      List.mem_filter, h1, h2, h3, h4]

/-- Witness for C10: a boolean column is in the schema yet in none of the
three lists, so the lists do not cover the uploaded schema. -/
theorem unclassified_dtype_in_no_column_list_witness :
    "flag" ∈ uploadBodyBool.columns ∧
    ("flag" ∉ (mkDataInfo uploadBodyBool).numeric_columns ∧
     "flag" ∉ (mkDataInfo uploadBodyBool).categorical_columns ∧
     "flag" ∉ (mkDataInfo uploadBodyBool).date_columns) :=
  ⟨by decide,
   unclassified_dtype_in_no_column_list uploadBodyBool "flag"
     (by decide) (by decide) (by decide) (by decide)⟩

/-- C8: with a null captured `sessionId`, each of `processCommand`,
`applySuggestion` and `uploadFile` attempts `createSession`, still reads
null from its closure, sets the try-again error and returns having issued
no command/apply/upload request. -/
theorem null_session_blocks_requests
    (s : ExplorerState) (command : String)
    (cenv : CmdEnv) (senv : SugEnv) (uenv : UploadEnv)
    (hs : s.sessionId = none) :
    ((processCommand s command cenv).1.error = some noSessionMsg ∧
      (processCommand s command cenv).2 = [Request.createSession]) ∧
    ((applySuggestion s senv).1.error = some noSessionMsg ∧
      (applySuggestion s senv).2 = [Request.createSession]) ∧
    ((uploadFile s uenv).1.error = some noSessionMsg ∧
      (uploadFile s uenv).2 = [Request.createSession]) := by
  cases hc : cenv.createResp <;> cases hsu : senv.createResp <;>
    cases hu : uenv.createResp <;>
    simp [processCommand, applySuggestion, uploadFile, hs, createSession, hc, hsu, hu]

/-- Witness for C8: even when the server-side session creation succeeds,
the handlers error out and send nothing further. -/
theorem null_session_blocks_requests_witness :
    ((processCommand nullState "top 5" envCreateOk).1.error = some noSessionMsg ∧
      (processCommand nullState "top 5" envCreateOk).2 = [Request.createSession]) ∧
    ((applySuggestion nullState sugEnvCreateOk).1.error = some noSessionMsg ∧
      (applySuggestion nullState sugEnvCreateOk).2 = [Request.createSession]) ∧
    ((uploadFile nullState uploadEnvCreateOk).1.error = some noSessionMsg ∧
      (uploadFile nullState uploadEnvCreateOk).2 = [Request.createSession]) :=
  null_session_blocks_requests nullState "top 5" envCreateOk sugEnvCreateOk
    uploadEnvCreateOk rfl

/-- C9: an HTTP-ok response whose body has `success = false` is silently
dropped by `processCommand` and `applySuggestion`: the four turn-state
fields keep their pre-turn values and no error message is left set. -/
theorem success_false_turn_silently_dropped
    (s : ExplorerState) (sid command : String) (cenv : CmdEnv) (senv : SugEnv)
    (cb sb : CmdBody) (hs : s.sessionId = some sid)
    (hc : cenv.resp = Fetch.ok cb) (hcb : cb.success = false)
    (hsu : senv.resp = Fetch.ok sb) (hsb : sb.success = false) :
    (turnStateUnchanged s (processCommand s command cenv).1 ∧
      (processCommand s command cenv).1.error = none) ∧
    (turnStateUnchanged s (applySuggestion s senv).1 ∧
      (applySuggestion s senv).1.error = none) := by
  simp [processCommand, applySuggestion, processCommandWith, applySuggestionWith,
    hs, hc, hcb, hsu, hsb, turnStateUnchanged]

/-- Witness for C9 at a concrete `success = false` body. -/
theorem success_false_turn_silently_dropped_witness :
    (turnStateUnchanged baseState (processCommand baseState "sort" envOkFalse).1 ∧
      (processCommand baseState "sort" envOkFalse).1.error = none) ∧
    (turnStateUnchanged baseState (applySuggestion baseState sugEnvFalse).1 ∧
      (applySuggestion baseState sugEnvFalse).1.error = none) :=
  success_false_turn_silently_dropped baseState "sess-1" "sort" envOkFalse sugEnvFalse
    failBody failBody rfl rfl rfl rfl rfl

/-- History effect of `processCommandWith`: unchanged or one entry appended. -/
theorem processCommandWith_history (sid : String) (s : ExplorerState)
    (command : String) (env : CmdEnv) :
    (processCommandWith sid s command env).1.conversationHistory = s.conversationHistory ∨
    ∃ e, (processCommandWith sid s command env).1.conversationHistory =
      s.conversationHistory ++ [e] := by
  obtain ⟨resp, retryResp, chartResp, createResp, now⟩ := env
  cases resp with
  | ok body =>
    by_cases hb : body.success
    · cases hcc : body.chart_config with
      | some cfg =>
        cases chartResp <;>
          exact Or.inr ⟨mainEntry command body now,
            by simp [processCommandWith, hb, hcc, cmdSuccessUpdate];
               cases body.charts <;> simp⟩
      | none =>
        exact Or.inr ⟨mainEntry command body now,
          by simp [processCommandWith, hb, hcc, cmdSuccessUpdate];
             cases body.charts <;> simp⟩
    · left; simp [processCommandWith, hb]
  | httpErr status detail =>
    by_cases h404 : status = 404
    · cases retryResp with
      | ok body =>
        by_cases hb : body.success
        · exact Or.inr ⟨retryEntry command body now,
            by cases createResp <;> simp [processCommandWith, h404, hb, createSession]⟩
        · left; cases createResp <;> simp [processCommandWith, h404, hb, createSession]
      | httpErr st2 d2 =>
        left; cases createResp <;> simp [processCommandWith, h404, createSession]
      | thrown m2 =>
        left; cases createResp <;> simp [processCommandWith, h404, createSession]
    · by_cases h400 : status = 400 ∧ detail = some "No data loaded" <;>
        simp [processCommandWith, h404, h400]
  | thrown msg => left; simp [processCommandWith]

/-- C5: every modelled operation either appends exactly one entry at the end
of `conversationHistory`, empties it, or leaves it unchanged — the history
is an append-only ordered sequence. -/
theorem conversationHistory_append_only
    (s : ExplorerState) (command : String) (cenv : CmdEnv) (senv : SugEnv)
    (uenv : UploadEnv) (renv : ResetEnv) (cresp : Fetch String) :
    historyStep s (processCommand s command cenv).1 ∧
    historyStep s (applySuggestion s senv).1 ∧
    historyStep s (uploadFile s uenv).1 ∧
    historyStep s (resetSession s renv).1 ∧
    historyStep s (clearConversation s) ∧
    historyStep s (createSession s cresp) := by
  refine ⟨?_, ?_, ?_, ?_, ?_, ?_⟩
  · cases hsid : s.sessionId with
    | none =>
      left
      cases hc : cenv.createResp <;>
        simp [processCommand, hsid, createSession, hc]
    | some sid =>
      rcases processCommandWith_history sid s command cenv with h | ⟨e, h⟩
      · left; simpa [processCommand, hsid] using h
      · right; right; exact ⟨e, by simpa [processCommand, hsid] using h⟩
  · left
    cases hsid : s.sessionId with
    | none =>
      cases hc : senv.createResp <;>
        simp [applySuggestion, hsid, createSession, hc]
    | some sid =>
      obtain ⟨resp, createResp⟩ := senv
      cases resp with
      | ok body =>
        by_cases hb : body.success <;>
          simp [applySuggestion, hsid, applySuggestionWith, hb]
      | httpErr status detail =>
        by_cases h404 : status = 404
        · cases createResp <;>
            simp [applySuggestion, hsid, applySuggestionWith, h404, createSession]
        · by_cases h400 : status = 400 ∧ detail = some "No data loaded" <;>
            simp [applySuggestion, hsid, applySuggestionWith, h404, h400]
      | thrown msg => simp [applySuggestion, hsid, applySuggestionWith]
  · left
    cases hsid : s.sessionId with
    | none =>
      cases hc : uenv.createResp <;>
        simp [uploadFile, hsid, createSession, hc]
    | some sid =>
      obtain ⟨resp, retryResp, dataResp, createResp⟩ := uenv
      cases resp with
      | ok body =>
        cases dataResp <;>
          simp [uploadFile, hsid, uploadFileWith, uploadSuccessUpdate]
      | httpErr status detail =>
        by_cases h404 : status = 404
        · cases retryResp with
          | ok rbody =>
            cases dataResp <;> cases createResp <;>
              simp [uploadFile, hsid, uploadFileWith, h404, uploadSuccessUpdate,
                createSession]
          | httpErr st2 d2 =>
            cases createResp <;>
              simp [uploadFile, hsid, uploadFileWith, h404, createSession]
          | thrown m2 =>
            cases createResp <;>
              simp [uploadFile, hsid, uploadFileWith, h404, createSession]
        · simp [uploadFile, hsid, uploadFileWith, h404]
      | thrown msg => simp [uploadFile, hsid, uploadFileWith]
  · cases hsid : s.sessionId with
    | none => left; simp [resetSession, hsid]
    | some sid =>
      obtain ⟨resetResp, dataResp⟩ := renv
      cases resetResp with
      | ok u =>
        cases dataResp with
        | ok rows => right; left; simp [resetSession, hsid]
        | httpErr st2 d2 => right; left; simp [resetSession, hsid]
        | thrown m2 => left; simp [resetSession, hsid]
      | httpErr st2 d2 => left; simp [resetSession, hsid]
      | thrown m2 => left; simp [resetSession, hsid]
  · right; left; simp [clearConversation]
  · left; cases cresp <;> simp [createSession]

/-- Counterexample to C1 as stated: on an error response (HTTP 404) the
handler retries with a new session, and when the retry succeeds it updates
`currentData` and the history and sets no error message — state updates do
occur on the error path. -/
theorem processCommand_error_response_can_update_state :
    (processCommand baseState "show sales" envRetryA).1.currentData ≠ baseState.currentData ∧
    (processCommand baseState "show sales" envRetryA).1.conversationHistory ≠
      baseState.conversationHistory ∧
    (processCommand baseState "show sales" envRetryA).1.error = none := by decide

/-- C1 (amended): for every command turn that fails — the response is an
error and, in the 404 case, the automatic retry is not HTTP-ok either, or
the request throws — the failure is converted into a user-facing error
message and `currentData`, `conversationHistory`, `lastOperation`,
`suggestions` keep their pre-turn values. -/
theorem processCommand_failure_sets_message_and_preserves_state
    (s : ExplorerState) (sid command : String) (env : CmdEnv)
    (hs : s.sessionId = some sid) (hf : cmdTurnFails env = true) :
    (processCommand s command env).1.error.isSome = true ∧
    turnStateUnchanged s (processCommand s command env).1 := by
  obtain ⟨resp, retryResp, chartResp, createResp, now⟩ := env
  simp only [processCommand, hs]
  cases resp with
  | ok body => simp [cmdTurnFails] at hf
  | thrown msg => simp [processCommandWith, turnStateUnchanged]
  | httpErr status detail =>
    by_cases h404 : status = 404
    · subst h404
      simp only [cmdTurnFails] at hf
      cases retryResp with
      | ok body => simp at hf
      | httpErr st2 d2 =>
        constructor <;> cases createResp <;>
          simp [processCommandWith, createSession, turnStateUnchanged]
      | thrown m2 =>
        constructor <;> cases createResp <;>
          simp [processCommandWith, createSession, turnStateUnchanged]
    · by_cases h400 : status = 400 ∧ detail = some "No data loaded" <;>
        simp [processCommandWith, h404, h400, turnStateUnchanged]

/-- Witness for the amended C1: a thrown request sets a message and
preserves the turn state. -/
theorem processCommand_failure_sets_message_and_preserves_state_witness :
    (processCommand baseState "filter sales" envThrowCmd).1.error.isSome = true ∧
    turnStateUnchanged baseState (processCommand baseState "filter sales" envThrowCmd).1 :=
  processCommand_failure_sets_message_and_preserves_state baseState "sess-1"
    "filter sales" envThrowCmd rfl (by decide)

/-- Counterexample to C4 as stated: a 404 does not terminate the turn with
the session-expired error and unchanged state — the handler retries with a
new session and, the retry succeeding, updates the session state. -/
theorem processCommand_404_retry_success_changes_state :
    (processCommand baseState "sum revenue" envRetryB).1.error ≠ some sessionExpiredMsg ∧
    (processCommand baseState "sum revenue" envRetryB).1.currentData ≠ baseState.currentData ∧
    (processCommand baseState "sum revenue" envRetryB).1.lastOperation ≠
      baseState.lastOperation := by decide

/-- C4 (amended): a 404 first triggers one automatic retry against a freshly
created session; when the retry response is an HTTP error the session-expired
error is set, when the retry fetch itself throws the outer catch sets the
thrown message — in both cases the turn state is unchanged.  A 400 with
detail `No data loaded` sets the upload-first error with the turn state
unchanged, and the turn issues nothing beyond the one command request. -/
theorem processCommand_early_failures_leave_state_unchanged
    (s : ExplorerState) (sid command : String) (env : CmdEnv)
    (hs : s.sessionId = some sid) :
    ((∃ d, env.resp = Fetch.httpErr 404 d) →
      ((∃ st2 d2, env.retryResp = Fetch.httpErr st2 d2) →
        (processCommand s command env).1.error = some sessionExpiredMsg ∧
        turnStateUnchanged s (processCommand s command env).1) ∧
      (∀ m, env.retryResp = Fetch.thrown m →
        (processCommand s command env).1.error = some m ∧
        turnStateUnchanged s (processCommand s command env).1)) ∧
    (env.resp = Fetch.httpErr 400 (some "No data loaded") →
      (processCommand s command env).1.error = some uploadFirstMsg ∧
      turnStateUnchanged s (processCommand s command env).1 ∧
      (processCommand s command env).2 = [Request.command sid command]) := by
  obtain ⟨resp, retryResp, chartResp, createResp, now⟩ := env
  constructor
  · rintro ⟨d, rfl⟩
    constructor
    · rintro ⟨st2, d2, rfl⟩
      simp only [processCommand, hs]
      constructor <;> cases createResp <;>
        simp [processCommandWith, createSession, turnStateUnchanged]
    · rintro m rfl
      simp only [processCommand, hs]
      constructor <;> cases createResp <;>
        simp [processCommandWith, createSession, turnStateUnchanged]
  · rintro rfl
    simp [processCommand, hs, processCommandWith, turnStateUnchanged]

/-- Witness for the amended C4 at concrete 404-retry-HTTP-error,
404-retry-thrown and 400-no-data environments. -/
theorem processCommand_early_failures_leave_state_unchanged_witness :
    ((processCommand baseState "avg sales" env404Fail).1.error = some sessionExpiredMsg ∧
      turnStateUnchanged baseState (processCommand baseState "avg sales" env404Fail).1) ∧
    ((processCommand baseState "avg sales" env404Thrown).1.error = some "Failed to fetch" ∧
      turnStateUnchanged baseState (processCommand baseState "avg sales" env404Thrown).1) ∧
    ((processCommand baseState "avg sales" env400NoData).1.error = some uploadFirstMsg ∧
      turnStateUnchanged baseState (processCommand baseState "avg sales" env400NoData).1 ∧
      (processCommand baseState "avg sales" env400NoData).2 =
        [Request.command "sess-1" "avg sales"]) :=
  ⟨((processCommand_early_failures_leave_state_unchanged baseState "sess-1" "avg sales"
      env404Fail rfl).1 ⟨some "Session not found", rfl⟩).1 ⟨404, some "Session not found", rfl⟩,
   ((processCommand_early_failures_leave_state_unchanged baseState "sess-1" "avg sales"
      env404Thrown rfl).1 ⟨some "Session not found", rfl⟩).2 "Failed to fetch" rfl,
   (processCommand_early_failures_leave_state_unchanged baseState "sess-1" "avg sales"
      env400NoData rfl).2 rfl⟩

/-- Counterexample to C2 as stated: applying a suggestion whose response
succeeds updates `currentData` but appends no `ConversationEntry`, while a
command turn with the very same successful result body appends one — the
session-state updates are not the same. -/
theorem applySuggestion_appends_no_entry :
    (applySuggestion baseState sugEnvOk).1.currentData = okBody.data ∧
    (applySuggestion baseState sugEnvOk).1.conversationHistory =
      baseState.conversationHistory ∧
    (processCommand baseState "top 1 by sales" envOkCmd).1.conversationHistory ≠
      baseState.conversationHistory := by decide

/-- C2 (amended): applying a suggestion bypasses the interpreter and, for
the same successful operation result, performs exactly the command turn's
updates of `currentData`, `lastOperation` and `suggestions` — but it
appends no `ConversationEntry`, whereas the command turn appends one. -/
theorem applySuggestion_matches_command_turn_except_history
    (s : ExplorerState) (sid command : String) (cenv : CmdEnv) (senv : SugEnv)
    (body : CmdBody) (hs : s.sessionId = some sid)
    (hc : cenv.resp = Fetch.ok body) (hsu : senv.resp = Fetch.ok body)
    (hb : body.success = true) :
    (applySuggestion s senv).1.currentData = (processCommand s command cenv).1.currentData ∧
    (applySuggestion s senv).1.lastOperation = (processCommand s command cenv).1.lastOperation ∧
    (applySuggestion s senv).1.suggestions = (processCommand s command cenv).1.suggestions ∧
    (applySuggestion s senv).1.conversationHistory = s.conversationHistory ∧
    (processCommand s command cenv).1.conversationHistory =
      s.conversationHistory ++ [mainEntry command body cenv.now] := by
  simp only [processCommand, applySuggestion, hs, processCommandWith,
    applySuggestionWith, hc, hsu, hb]
  cases hcc : body.chart_config <;> cases hcr : cenv.chartResp <;>
    simp [cmdSuccessUpdate, hcc, opResultOf] <;>
    cases hch : body.charts <;> simp

/-- Witness for the amended C2 at a concrete successful body. -/
theorem applySuggestion_matches_command_turn_except_history_witness :
    (applySuggestion baseState sugEnvOk).1.currentData =
      (processCommand baseState "top 1 by sales" envOkCmd).1.currentData ∧
    (applySuggestion baseState sugEnvOk).1.lastOperation =
      (processCommand baseState "top 1 by sales" envOkCmd).1.lastOperation ∧
    (applySuggestion baseState sugEnvOk).1.suggestions =
      (processCommand baseState "top 1 by sales" envOkCmd).1.suggestions ∧
    (applySuggestion baseState sugEnvOk).1.conversationHistory =
      baseState.conversationHistory ∧
    (processCommand baseState "top 1 by sales" envOkCmd).1.conversationHistory =
      baseState.conversationHistory ++ [mainEntry "top 1 by sales" okBody envOkCmd.now] :=
  applySuggestion_matches_command_turn_except_history baseState "sess-1"
    "top 1 by sales" envOkCmd sugEnvOk okBody rfl rfl rfl rfl
